import Mathlib

/-!
Verification development for the download-statistics module
(`src/api/src/store/stats-store.js` and `src/api/src/core/stats.js`).

The repository ships two variants of the stats store (a base variant whose
`recordDownload` re-throws backend errors, and a hardened variant that
catches every backend error and returns a boolean) and a hardened request
handler with per-field error isolation.  Both are embedded below.

Modelling choices:
* The backing key-value store holds exactly the three keys this module
  uses (`totalDownloads`, `dailyStats`, `socialMediaStats`); it is
  modelled as a record of three `Option` fields (`none` = key absent).
* JavaScript objects used as counters are modelled as association lists
  `List (String × Nat)`; in-place increment of a key is `bump`, which
  updates the first matching entry or appends a fresh one — exactly the
  observable behaviour of `obj[k] = (obj[k] || 0) + 1`.
* The process-local time zone is fixed to UTC (the daily keys are produced
  by `toISOString`, which is UTC).  `new Date()` is an integer count of
  milliseconds since the epoch; `new Date("YYYY-MM-DD")` is the UTC
  midnight of that civil date, or an invalid date (`none`, JavaScript
  `NaN`) when the string is not a valid ISO calendar date.  All `NaN`
  comparisons are false, as in JavaScript.
* Where a method computes `new Date().toISOString().split('T')[0]` the
  embedding takes the resulting key string `today` as a parameter, and
  where a method compares timestamps it takes the current instant `now`
  (milliseconds) as a parameter.
-/

namespace CobaltStats

/-- JavaScript object acting as a string-keyed counter map. -/
abbrev ObjNat := List (String × Nat)

/-- The three persisted fields of the `stats` store namespace.
`none` models an absent key. -/
structure StatsState where
  totalDownloads : Option Nat
  dailyStats : Option ObjNat
  socialMediaStats : Option ObjNat
  deriving DecidableEq, Repr

/-- Property lookup `obj[k]` with the `|| 0` default applied. -/
def lookupD : ObjNat → String → Nat
  | [], _ => 0
  | (k', v) :: rest, k => if k' = k then v else lookupD rest k

/-- In-place increment `if (!obj[k]) obj[k] = 0; obj[k]++`:
update the entry for `k` if present, otherwise append `(k, 1)`. -/
def bump : ObjNat → String → ObjNat
  | [], k => [(k, 1)]
  | (k', v) :: rest, k =>
      if k' = k then (k', v + 1) :: rest else (k', v) :: bump rest k

/-- Sum of the values of a counter object. -/
def sumCounts : ObjNat → Nat
  | [] => 0
  | (_, v) :: rest => v + sumCounts rest

/-- JavaScript truthiness of the optional `socialMedia` argument:
`null`/absent and the empty string are falsy. -/
def truthyStr : Option String → Bool
  | none => false
  | some s => s != ""

/-- `getTotalDownloads`: `await this.#store.get('totalDownloads') || 0`. -/
def getTotalDownloads (s : StatsState) : Nat :=
  s.totalDownloads.getD 0

/-- `getDailyStats`: `await this.#store.get('dailyStats') || {}`. -/
def getDailyStats (s : StatsState) : ObjNat :=
  s.dailyStats.getD []

/-- `getSocialMediaStats`: `await this.#store.get('socialMediaStats') || {}`. -/
def getSocialMediaStats (s : StatsState) : ObjNat :=
  s.socialMediaStats.getD []

/-- `getDownloadsToday`: look up today's key in the daily histogram
(`dailyStats[today] || 0`). -/
def getDownloadsToday (today : String) (s : StatsState) : Nat :=
  lookupD (getDailyStats s) today

/-- `recordDownload(socialMedia = null)`, fault-free execution: increments
the total, today's daily bucket, and — only when `socialMedia` is truthy —
the social-media bucket.  `today` is the computed `YYYY-MM-DD` key. -/
def recordDownload (today : String) (socialMedia : Option String) (s : StatsState) : StatsState :=
  let totalDownloads := getTotalDownloads s
  let s1 : StatsState := { s with totalDownloads := some (totalDownloads + 1) }
  let dailyStats := getDailyStats s1
  let s2 : StatsState := { s1 with dailyStats := some (bump dailyStats today) }
  match socialMedia with
  | some sm =>
      if sm != "" then
        { s2 with socialMediaStats := some (bump (getSocialMediaStats s2) sm) }
      else s2
  | none => s2

/-- `initializeStats`: for each of the three fields, if the key is absent
(`!(await this.#store.has(k))`), write its zero value. -/
def initializeStats (s : StatsState) : StatsState :=
  let s1 := if s.totalDownloads.isSome then s else { s with totalDownloads := some 0 }
  let s2 := if s1.dailyStats.isSome then s1 else { s1 with dailyStats := some ([] : ObjNat) }
  if s2.socialMediaStats.isSome then s2 else { s2 with socialMediaStats := some ([] : ObjNat) }

/-- The store right after initialization from an empty namespace. -/
def initState : StatsState :=
  initializeStats ⟨none, none, none⟩

/-- Folding a sequence of `recordDownload` calls (one `today`/source pair
per call) over a state, in execution order. -/
def runRecords (events : List (String × Option String)) (s : StatsState) : StatsState :=
  events.foldl (fun st e => recordDownload e.1 e.2 st) s

/-- Folding same-day `recordDownload` calls given only their sources. -/
def runRecordsToday (today : String) (srcs : List (Option String)) (s : StatsState) : StatsState :=
  srcs.foldl (fun st sm => recordDownload today sm st) s

lemma bump_lookupD_same (l : ObjNat) (k : String) :
    lookupD (bump l k) k = lookupD l k + 1 := by
  induction l with
  | nil => simp [bump, lookupD]
  | cons hd tl ih =>
      obtain ⟨k', v⟩ := hd
      by_cases h : k' = k
      · simp [bump, lookupD, h]
      · simp [bump, lookupD, h, ih]

lemma bump_lookupD_ne (l : ObjNat) (k k' : String) (h : k ≠ k') :
    lookupD (bump l k) k' = lookupD l k' := by
  induction l with
  | nil => simp [bump, lookupD, h]
  | cons hd tl ih =>
      obtain ⟨k0, v⟩ := hd
      by_cases h0 : k0 = k
      · subst h0
        simp [bump, lookupD, h]
      · simp [bump, lookupD, h0, ih]

lemma bump_sumCounts (l : ObjNat) (k : String) :
    sumCounts (bump l k) = sumCounts l + 1 := by
  induction l with
  | nil => simp [bump, sumCounts]
  | cons hd tl ih =>
      obtain ⟨k', v⟩ := hd
      by_cases h : k' = k
      · simp [bump, sumCounts, h]
        omega
      · simp [bump, sumCounts, h, ih]
        omega

lemma recordDownload_total (today : String) (sm : Option String) (s : StatsState) :
    getTotalDownloads (recordDownload today sm s) = getTotalDownloads s + 1 := by
  cases sm with
  | none => simp [recordDownload, getTotalDownloads]
  | some x =>
      by_cases h : x = ""
      · simp [recordDownload, getTotalDownloads, h]
      · simp [recordDownload, getTotalDownloads, h]

lemma recordDownload_dailyStats (today : String) (sm : Option String) (s : StatsState) :
    getDailyStats (recordDownload today sm s) = bump (getDailyStats s) today := by
  cases sm with
  | none => simp [recordDownload, getDailyStats]
  | some x =>
      by_cases h : x = ""
      · simp [recordDownload, getDailyStats, h]
      · simp [recordDownload, getDailyStats, h]

lemma recordDownload_daily_today (today : String) (sm : Option String) (s : StatsState) :
    lookupD (getDailyStats (recordDownload today sm s)) today
      = lookupD (getDailyStats s) today + 1 := by
  rw [recordDownload_dailyStats, bump_lookupD_same]

lemma runRecordsToday_total (today : String) (srcs : List (Option String)) (s : StatsState) :
    getTotalDownloads (runRecordsToday today srcs s)
      = getTotalDownloads s + srcs.length := by
  induction srcs generalizing s with
  | nil => simp [runRecordsToday]
  | cons hd tl ih =>
      simp only [runRecordsToday, List.foldl_cons] at *
      rw [ih, recordDownload_total]
      simp only [List.length_cons]
      omega

lemma runRecordsToday_daily (today : String) (srcs : List (Option String)) (s : StatsState) :
    lookupD (getDailyStats (runRecordsToday today srcs s)) today
      = lookupD (getDailyStats s) today + srcs.length := by
  induction srcs generalizing s with
  | nil => simp [runRecordsToday]
  | cons hd tl ih =>
      simp only [runRecordsToday, List.foldl_cons] at *
      rw [ih, recordDownload_daily_today]
      simp only [List.length_cons]
      omega

/-- C1: starting from the initialized (zero/empty) store, a sequence of
sequential `recordDownload` calls all falling on the same test-clock day
leaves `getTotalDownloads()` equal to the number of calls, and the daily
histogram's bucket for today equal to the number of calls made that day. -/
theorem recordDownload_fold_total_daily (srcs : List (Option String)) (today : String) :
    getTotalDownloads (runRecordsToday today srcs initState) = srcs.length ∧
    lookupD (getDailyStats (runRecordsToday today srcs initState)) today = srcs.length := by
  constructor
  · rw [runRecordsToday_total]
    simp [initState, initializeStats, getTotalDownloads]
  · rw [runRecordsToday_daily]
    simp [initState, initializeStats, getDailyStats, lookupD]

lemma recordDownload_social_none (today : String) (s : StatsState) :
    (recordDownload today none s).socialMediaStats = s.socialMediaStats := by
  simp [recordDownload]

lemma recordDownload_social_empty (today : String) (s : StatsState) :
    (recordDownload today (some "") s).socialMediaStats = s.socialMediaStats := by
  simp [recordDownload]

lemma recordDownload_social_truthy (today x : String) (s : StatsState) (hx : x ≠ "") :
    getSocialMediaStats (recordDownload today (some x) s)
      = bump (getSocialMediaStats s) x := by
  simp [recordDownload, getSocialMediaStats, hx]

lemma runRecordsToday_social (today src : String) (hsrc : src ≠ "")
    (srcs : List (Option String)) (s : StatsState) :
    lookupD (getSocialMediaStats (runRecordsToday today srcs s)) src
      = lookupD (getSocialMediaStats s) src + srcs.count (some src) := by
  induction srcs generalizing s with
  | nil => simp [runRecordsToday]
  | cons hd tl ih =>
      simp only [runRecordsToday, List.foldl_cons] at *
      rw [ih]
      cases hd with
      | none =>
          have h1 : getSocialMediaStats (recordDownload today none s)
              = getSocialMediaStats s := by
            simp [getSocialMediaStats, recordDownload_social_none]
          rw [h1, List.count_cons]
          simp
      | some x =>
          by_cases hx : x = ""
          · subst hx
            have h1 : getSocialMediaStats (recordDownload today (some "") s)
                = getSocialMediaStats s := by
              simp [getSocialMediaStats, recordDownload_social_empty]
            rw [h1, List.count_cons]
            simp [Ne.symm hsrc]
          · rw [recordDownload_social_truthy today x s hx]
            by_cases hxs : x = src
            · subst hxs
              rw [bump_lookupD_same, List.count_cons]
              simp
              omega
            · rw [bump_lookupD_ne _ _ _ hxs, List.count_cons]
              simp [hxs]

/-- C2 counterexample: the claim quantifies over every source string, but a
call whose source is the empty string is falsy in `if (socialMedia)`, so it
is skipped: after recording a single download with source `""`, the
social-media histogram reports `0` for key `""` while the number of calls
whose source argument was exactly `""` is `1`. -/
theorem social_count_empty_source_cex :
    lookupD (getSocialMediaStats (runRecordsToday "2024-01-01" [some ""] initState)) "" = 0 ∧
    List.count (some "") [some ""] = 1 := by
  constructor
  · rfl
  · rfl

/-- C2 (amended): for every sequence of sequential `recordDownload` calls
from the initialized store and every non-empty source string `src`,
`getSocialMediaStats()[src]` equals the number of calls whose source
argument was exactly `src`; and every call whose source is `null`/absent or
the empty string (both falsy in JavaScript) leaves the social-media
histogram completely unchanged. -/
theorem social_count_matches (srcs : List (Option String)) (today src t2 : String)
    (s2 : StatsState) (hsrc : src ≠ "") :
    lookupD (getSocialMediaStats (runRecordsToday today srcs initState)) src
      = srcs.count (some src) ∧
    (recordDownload t2 none s2).socialMediaStats = s2.socialMediaStats ∧
    (recordDownload t2 (some "") s2).socialMediaStats = s2.socialMediaStats := by
  refine ⟨?_, recordDownload_social_none t2 s2, recordDownload_social_empty t2 s2⟩
  rw [runRecordsToday_social today src hsrc]
  simp [initState, initializeStats, getSocialMediaStats, lookupD]

/-- C2 witness: the spec's scenario sources `["tiktok", null, "tiktok"]`
recorded on one day give `socialMediaStats["tiktok"] = 2`, and falsy
sources leave the histogram untouched. -/
theorem social_count_matches_witness :
    lookupD (getSocialMediaStats (runRecordsToday "2024-01-01"
        [some "tiktok", none, some "tiktok"] initState)) "tiktok"
      = List.count (some "tiktok") [some "tiktok", none, some "tiktok"] ∧
    (recordDownload "2024-01-01" none initState).socialMediaStats
      = initState.socialMediaStats ∧
    (recordDownload "2024-01-01" (some "") initState).socialMediaStats
      = initState.socialMediaStats :=
  social_count_matches [some "tiktok", none, some "tiktok"] "2024-01-01" "tiktok"
    "2024-01-01" initState (by decide)

lemma runRecords_total_sum (events : List (String × Option String)) (s : StatsState)
    (h : getTotalDownloads s = sumCounts (getDailyStats s)) :
    getTotalDownloads (runRecords events s)
      = sumCounts (getDailyStats (runRecords events s)) := by
  induction events generalizing s with
  | nil => simpa [runRecords] using h
  | cons hd tl ih =>
      simp only [runRecords, List.foldl_cons] at *
      apply ih
      rw [recordDownload_total, recordDownload_dailyStats, bump_sumCounts, h]

/-- C3: after every sequence of successfully applied, atomically executed
`recordDownload` operations starting from the initialized (zero/empty)
state, the total counter equals the sum of all values in the daily
histogram. -/
theorem total_eq_daily_sum (events : List (String × Option String)) :
    getTotalDownloads (runRecords events initState)
      = sumCounts (getDailyStats (runRecords events initState)) := by
  apply runRecords_total_sum
  rfl

/-- C7: `initializeStats` is idempotent — running it twice gives the same
store state as running it once — and each field of the result is the old
value when the key was present (never resetting a present field) and the
zero value only when the key was absent. -/
theorem initializeStats_idempotent_preserves (s : StatsState) :
    initializeStats (initializeStats s) = initializeStats s ∧
    (initializeStats s).totalDownloads = some (s.totalDownloads.getD 0) ∧
    (initializeStats s).dailyStats = some (s.dailyStats.getD []) ∧
    (initializeStats s).socialMediaStats = some (s.socialMediaStats.getD []) := by
  obtain ⟨t, d, so⟩ := s
  cases t <;> cases d <;> cases so <;> simp [initializeStats]

/-- Which primitive backing-store operations of a single `recordDownload`
call raise a backend error.  `getTotal`/`getDaily`/`getSocial` are the
`#store.get` reads and `setTotal`/`setDaily`/`setSocial` the `#store.set`
writes, in source order. -/
structure FaultSpec where
  getTotal : Bool
  getDaily : Bool
  getSocial : Bool
  setTotal : Bool
  setDaily : Bool
  setSocial : Bool
  deriving DecidableEq, Repr

/-- Base-variant `recordDownload` (stats-store.js, first variant): the
getters have no internal catch, and the method's own `catch` block logs
and re-throws (`throw error`), so any backend error propagates to the
caller as an exception (`Except.error`).  A failing operation is assumed
not to mutate the store. -/
def recordDownloadBase (fs : FaultSpec) (today : String) (socialMedia : Option String)
    (s : StatsState) : Except Unit StatsState :=
  if fs.getTotal then .error () else
  let totalDownloads := getTotalDownloads s
  if fs.setTotal then .error () else
  let s1 : StatsState := { s with totalDownloads := some (totalDownloads + 1) }
  if fs.getDaily then .error () else
  let dailyStats := getDailyStats s1
  if fs.setDaily then .error () else
  let s2 : StatsState := { s1 with dailyStats := some (bump dailyStats today) }
  match socialMedia with
  | some sm =>
      if sm != "" then
        if fs.getSocial then .error () else
        let socialMediaStats := getSocialMediaStats s2
        if fs.setSocial then .error () else
        .ok { s2 with socialMediaStats := some (bump socialMediaStats sm) }
      else .ok s2
  | none => .ok s2

/-- Hardened-variant `recordDownload` (stats-store.js, second variant):
the getters catch internally and return their zero default, the method
catches any `#store.set` error and returns `false` (keeping whatever
writes already succeeded), and returns `true` on success. -/
def recordDownloadH (fs : FaultSpec) (today : String) (socialMedia : Option String)
    (s : StatsState) : Bool × StatsState :=
  let totalDownloads := if fs.getTotal then 0 else getTotalDownloads s
  if fs.setTotal then (false, s) else
  let s1 : StatsState := { s with totalDownloads := some (totalDownloads + 1) }
  let dailyStats := if fs.getDaily then [] else getDailyStats s1
  if fs.setDaily then (false, s1) else
  let s2 : StatsState := { s1 with dailyStats := some (bump dailyStats today) }
  match socialMedia with
  | some sm =>
      if sm != "" then
        let socialMediaStats := if fs.getSocial then [] else getSocialMediaStats s2
        if fs.setSocial then (false, s2) else
        (true, { s2 with socialMediaStats := some (bump socialMediaStats sm) })
      else (true, s2)
  | none => (true, s2)

/-- C4 counterexample: in the base variant a failing
`set('totalDownloads', ...)` makes `recordDownload` propagate the
exception to its caller (the `catch` block re-throws), contradicting the
claim that it always returns a boolean and never throws. -/
theorem recordDownload_base_propagates_cex :
    recordDownloadBase ⟨false, false, false, true, false, false⟩
      "2024-01-01" none initState = .error () := by
  rfl

/-- C4 (amended): the hardened variant's `recordDownload` never propagates
an exception — it totals to a boolean-and-state pair — and its boolean is
`false` exactly when one of the `#store.set` operations it executes raises
a backend error (the social-media write only executes for a truthy
source), `true` otherwise.  The base variant instead re-throws backend
errors to its caller. -/
theorem recordDownload_hardened_boolean (fs : FaultSpec) (today : String)
    (socialMedia : Option String) (s : StatsState) :
    (recordDownloadH fs today socialMedia s).1
      = !(fs.setTotal || fs.setDaily || (truthyStr socialMedia && fs.setSocial)) := by
  obtain ⟨gt, gd, gs, st, sd, ss⟩ := fs
  cases st <;> cases sd <;> cases ss <;>
    cases socialMedia with
    | none => simp [recordDownloadH, truthyStr]
    | some x =>
        by_cases hx : x = "" <;>
          simp [recordDownloadH, truthyStr, hx]

/-- Milliseconds per UTC day. -/
def msPerDay : Int := 86400000

/-- Gregorian leap-year test. -/
def isLeapYear (y : Int) : Bool :=
  y % 4 == 0 && (y % 100 != 0 || y % 400 == 0)

/-- Length of month `m` (1-12) of year `y`. -/
def daysInMonth (y : Int) (m : Nat) : Nat :=
  if m = 2 then (if isLeapYear y then 29 else 28)
  else if m = 4 ∨ m = 6 ∨ m = 9 ∨ m = 11 then 30
  else 31

/-- Days since the epoch (1970-01-01) of the civil date `y-m-d`
(standard era/day-of-era computation over 400-year cycles). -/
def daysFromCivil (y : Int) (m d : Nat) : Int :=
  let yAdj : Int := if m ≤ 2 then y - 1 else y
  let era : Int := yAdj / 400
  let yoe : Nat := (yAdj - era * 400).toNat
  let mp : Nat := if m > 2 then m - 3 else m + 9
  let doy : Nat := (153 * mp + 2) / 5 + d - 1
  let doe : Nat := yoe * 365 + yoe / 4 - yoe / 100 + doy
  era * 146097 + (doe : Int) - 719468

/-- Civil date `(year, month, day)` of an epoch-day count (inverse of
`daysFromCivil`). -/
def civilFromDays (z : Int) : Int × Nat × Nat :=
  let zSh := z + 719468
  let era : Int := zSh / 146097
  let doe : Nat := (zSh - era * 146097).toNat
  let yoe : Nat := (doe - doe / 1460 + doe / 36524 - doe / 146096) / 365
  let y : Int := (yoe : Int) + era * 400
  let doy : Nat := doe - (365 * yoe + yoe / 4 - yoe / 100)
  let mp : Nat := (5 * doy + 2) / 153
  let d : Nat := doy - (153 * mp + 2) / 5 + 1
  let m : Nat := if mp < 10 then mp + 3 else mp - 9
  (y + (if m ≤ 2 then 1 else 0), m, d)

/-- Numeric value of a decimal digit character. -/
def digitVal (c : Char) : Nat := c.toNat - 48

/-- `new Date(dateStr)` key parsing: a histogram key is a valid date
exactly when it is a well-formed `YYYY-MM-DD` ISO calendar date (month
1-12, day within the month); anything else is an invalid date
(JavaScript `NaN`), modelled as `none`. -/
def parseDate (s : String) : Option (Int × Nat × Nat) :=
  match s.toList with
  | [y1, y2, y3, y4, h1, m1, m2, h2, d1, d2] =>
      if y1.isDigit && y2.isDigit && y3.isDigit && y4.isDigit &&
         h1 == '-' && m1.isDigit && m2.isDigit && h2 == '-' &&
         d1.isDigit && d2.isDigit then
        let y : Int := Int.ofNat
          (digitVal y1 * 1000 + digitVal y2 * 100 + digitVal y3 * 10 + digitVal y4)
        let m : Nat := digitVal m1 * 10 + digitVal m2
        let d : Nat := digitVal d1 * 10 + digitVal d2
        if 1 ≤ m ∧ m ≤ 12 ∧ 1 ≤ d ∧ d ≤ daysInMonth y m then some (y, m, d)
        else none
      else none
  | _ => none

/-- Timestamp (ms) of `new Date(dateStr)`: the UTC midnight of the parsed
calendar date. -/
def parseDateMs (s : String) : Option Int :=
  (parseDate s).map (fun ymd => daysFromCivil ymd.1 ymd.2.1 ymd.2.2 * msPerDay)

/-- The UTC epoch day containing the instant `ms`. -/
def epochDayOf (ms : Int) : Int := ms / msPerDay

/-- `getUTCMonth`-style month (1-12 here; JavaScript reports this minus 1)
of the instant `ms`. -/
def monthOf (ms : Int) : Nat := (civilFromDays (epochDayOf ms)).2.1

/-- `getUTCFullYear` of the instant `ms`. -/
def yearOf (ms : Int) : Int := (civilFromDays (epochDayOf ms)).1

/-- `getDownloadsThisWeek`: `weekAgo` is the current instant minus seven
days (`setDate(getDate() - 7)` in UTC), and a bucket is counted when its
parsed `Date` satisfies `date >= weekAgo && date <= today` as timestamps;
invalid dates (`NaN`) compare false. -/
def getDownloadsThisWeek (now : Int) (s : StatsState) : Nat :=
  let dailyStats := getDailyStats s
  let weekAgo := now - 7 * msPerDay
  dailyStats.foldl (fun weeklyTotal e =>
    match parseDateMs e.1 with
    | none => weeklyTotal
    | some date =>
        if weekAgo ≤ date ∧ date ≤ now then weeklyTotal + e.2 else weeklyTotal) 0

/-- `getDownloadsThisMonth`: a bucket is counted when its parsed `Date`
satisfies `date.getMonth() === currentMonth && date.getFullYear() ===
currentYear`; invalid dates (`NaN`) compare false. -/
def getDownloadsThisMonth (now : Int) (s : StatsState) : Nat :=
  let dailyStats := getDailyStats s
  let currentMonth : Int := (monthOf now : Int) - 1
  let currentYear : Int := yearOf now
  dailyStats.foldl (fun monthlyTotal e =>
    match parseDate e.1 with
    | none => monthlyTotal
    | some ymd =>
        if (ymd.2.1 : Int) - 1 = currentMonth ∧ ymd.1 = currentYear
        then monthlyTotal + e.2 else monthlyTotal) 0

/-- Inclusion test actually applied by `getDownloadsThisWeek` to a key. -/
def weekPred (now : Int) (k : String) : Bool :=
  match parseDateMs k with
  | none => false
  | some t => decide (now - 7 * msPerDay ≤ t ∧ t ≤ now)

/-- Inclusion test actually applied by `getDownloadsThisMonth` to a key:
the key parses and its calendar month and year equal today's. -/
def monthPred (now : Int) (k : String) : Bool :=
  match parseDate k with
  | none => false
  | some ymd => decide (ymd.2.1 = monthOf now ∧ ymd.1 = yearOf now)

lemma foldl_filter_sum (f : Nat → String × Nat → Nat) (p : String × Nat → Bool)
    (hf : ∀ a e, f a e = if p e then a + e.2 else a) (l : ObjNat) :
    ∀ acc : Nat, l.foldl f acc = acc + sumCounts (l.filter p) := by
  induction l with
  | nil => intro acc; simp [sumCounts]
  | cons hd tl ih =>
      intro acc
      rw [List.foldl_cons, hf]
      by_cases hp : p hd = true
      · simp [hp, ih, List.filter_cons, sumCounts]
        omega
      · simp [hp, ih, List.filter_cons, sumCounts]

lemma week_body_eq (now : Int) (a : Nat) (e : String × Nat) :
    (match parseDateMs e.1 with
      | none => a
      | some date =>
          if now - 7 * msPerDay ≤ date ∧ date ≤ now then a + e.2 else a)
      = if weekPred now e.1 then a + e.2 else a := by
  cases h : parseDateMs e.1 <;> simp [weekPred, h]

lemma month_body_eq (now : Int) (a : Nat) (e : String × Nat) :
    (match parseDate e.1 with
      | none => a
      | some ymd =>
          if (ymd.2.1 : Int) - 1 = (monthOf now : Int) - 1 ∧ ymd.1 = yearOf now
          then a + e.2 else a)
      = if monthPred now e.1 then a + e.2 else a := by
  cases h : parseDate e.1 with
  | none => simp [monthPred, h]
  | some ymd =>
      simp only [monthPred, h, decide_eq_true_eq]
      have : ((ymd.2.1 : Int) - 1 = (monthOf now : Int) - 1 ∧ ymd.1 = yearOf now)
          ↔ (ymd.2.1 = monthOf now ∧ ymd.1 = yearOf now) := by
        constructor <;> (rintro ⟨h1, h2⟩; exact ⟨by omega, h2⟩)
      simp [this]

/-- C5 counterexample: at noon UTC on 2024-03-08, the bucket dated
2024-03-01 — exactly 7 calendar days before today, hence inside the
claim's inclusive `[today - 7 days, today]` window, holding 5 downloads —
contributes nothing: `getDownloadsThisWeek` returns 0, because the
comparison is between timestamps (`weekAgo` is noon minus 7 days, after
the bucket's midnight), not calendar dates. -/
theorem downloads_week_excludes_seven_cex :
    getDownloadsThisWeek (daysFromCivil 2024 3 8 * msPerDay + 43200000)
        ⟨some 5, some [("2024-03-01", 5)], some []⟩ = 0 ∧
    daysFromCivil 2024 3 1
      = epochDayOf (daysFromCivil 2024 3 8 * msPerDay + 43200000) - 7 ∧
    sumCounts [("2024-03-01", 5)] = 5 := by
  refine ⟨rfl, rfl, rfl⟩

/-- C5 (amended): `getDownloadsThisWeek` returns the sum of the buckets
whose key parses to a calendar date whose UTC-midnight timestamp `t`
satisfies `now - 7·24h ≤ t ≤ now` — a rolling timestamp window, not an
inclusive calendar-date window.  For a valid key with epoch day `D` this
means `today - 6 ≤ D ≤ today` whenever the current time is strictly after
UTC midnight, and only at exactly midnight does the window extend to
`today - 7`; a bucket dated exactly 7 days before today is therefore
excluded except at that instant. -/
theorem downloads_week_window (now : Int) (stats : StatsState) (k : String)
    (y : Int) (m d : Nat) (hp : parseDate k = some (y, m, d)) :
    getDownloadsThisWeek now stats
      = sumCounts ((getDailyStats stats).filter (fun e => weekPred now e.1)) ∧
    (weekPred now k = true ↔
      (epochDayOf now - (if now % msPerDay = 0 then 7 else 6) ≤ daysFromCivil y m d ∧
       daysFromCivil y m d ≤ epochDayOf now)) := by
  constructor
  · simpa [getDownloadsThisWeek] using
      foldl_filter_sum _ (fun e => weekPred now e.1) (week_body_eq now)
        (getDailyStats stats) 0
  · have hms : parseDateMs k = some (daysFromCivil y m d * msPerDay) := by
      simp [parseDateMs, hp]
    simp only [weekPred, hms, decide_eq_true_eq, epochDayOf, msPerDay]
    have h0 : (86400000 : Int) * (now / 86400000) + now % 86400000 = now :=
      Int.ediv_add_emod now 86400000
    have h1 : 0 ≤ now % 86400000 := Int.emod_nonneg now (by norm_num)
    have h2 : now % 86400000 < 86400000 := Int.emod_lt_of_pos now (by norm_num)
    by_cases hr : now % 86400000 = 0
    · rw [if_pos hr]
      omega
    · rw [if_neg hr]
      omega

/-- C5 witness: concrete instance at noon UTC on 2024-03-08 with the key
2024-03-05 in the store. -/
theorem downloads_week_window_witness :
    getDownloadsThisWeek (daysFromCivil 2024 3 8 * msPerDay + 43200000)
        ⟨some 9, some [("2024-03-05", 4), ("2024-03-01", 5)], some []⟩
      = sumCounts ((getDailyStats
          ⟨some 9, some [("2024-03-05", 4), ("2024-03-01", 5)], some []⟩).filter
            (fun e => weekPred (daysFromCivil 2024 3 8 * msPerDay + 43200000) e.1)) ∧
    (weekPred (daysFromCivil 2024 3 8 * msPerDay + 43200000) "2024-03-05" = true ↔
      (epochDayOf (daysFromCivil 2024 3 8 * msPerDay + 43200000)
          - (if (daysFromCivil 2024 3 8 * msPerDay + 43200000) % msPerDay = 0 then 7 else 6)
            ≤ daysFromCivil 2024 3 5 ∧
       daysFromCivil 2024 3 5
          ≤ epochDayOf (daysFromCivil 2024 3 8 * msPerDay + 43200000))) :=
  downloads_week_window (daysFromCivil 2024 3 8 * msPerDay + 43200000)
    ⟨some 9, some [("2024-03-05", 4), ("2024-03-01", 5)], some []⟩
    "2024-03-05" 2024 3 5 (by rfl)

/-- C6: `getDownloadsThisMonth` returns exactly the sum of the buckets
whose key parses to a calendar date with the same month and year as today
(and no others); in particular the histogram with 5 downloads on
2024-03-01 and 3 on 2024-02-28, evaluated on 2024-03-15, yields 5. -/
theorem downloads_month_filter :
    (∀ (now : Int) (s : StatsState),
        getDownloadsThisMonth now s
          = sumCounts ((getDailyStats s).filter (fun e => monthPred now e.1))) ∧
    getDownloadsThisMonth (daysFromCivil 2024 3 15 * msPerDay)
        ⟨some 8, some [("2024-03-01", 5), ("2024-02-28", 3)], some []⟩ = 5 := by
  constructor
  · intro now s
    simpa [getDownloadsThisMonth] using
      foldl_filter_sum _ (fun e => monthPred now e.1) (month_body_eq now)
        (getDailyStats s) 0
  · rfl

/-- Environment configuration consumed by the read endpoint:
`env.apiKeyURL` (an API-key mechanism indicator, a URL string or unset)
and `env.authRequired`. -/
structure HandlerEnv where
  apiKeyURL : Option String
  authRequired : Bool
  deriving DecidableEq, Repr

/-- Incoming request, reduced to the `Authorization` header. -/
structure StatsRequest where
  authorization : Option String
  deriving DecidableEq, Repr

/-- Response envelope produced through the external `createResponse`
collaborator: an error with a machine-readable code, or a success payload
with the five aggregates. -/
inductive ApiResponse where
  | errorResp (code : String)
  | successResp (totalDownloads downloadsToday downloadsThisWeek downloadsThisMonth : Nat)
      (socialMediaStats : ObjNat)
  deriving DecidableEq, Repr

/-- The handler's auth test on the header:
`!authorization || !authorization.startsWith('API-Key ')`
(an absent or empty header is falsy). -/
def authHeaderMissing (req : StatsRequest) : Bool :=
  match req.authorization with
  | none => true
  | some a => a == "" || !(a.startsWith "API-Key ")

/-- Which of the five aggregate reads raises a backend error while the
hardened handler fetches them (each is wrapped in its own `try`/`catch`
and falls back to its zero value independently). -/
structure GetFaults where
  total : Bool
  today : Bool
  week : Bool
  month : Bool
  social : Bool
  deriving DecidableEq, Repr

/-- `acc[network] = count` during the `Object.entries(...).reduce` reshaping. -/
def setKey : ObjNat → String → Nat → ObjNat
  | [], k, v => [(k, v)]
  | (k', v') :: rest, k, v =>
      if k' = k then (k', v) :: rest else (k', v') :: setKey rest k v

/-- `Object.entries(socialMediaStats).reduce((acc, [network, count]) =>
{ acc[network] = count; return acc }, {})`. -/
def reduceEntries (l : ObjNat) : ObjNat :=
  l.foldl (fun acc e => setKey acc e.1 e.2) []

/-- Body of the hardened `handleStatsRequest` after the auth gate.
`store?` is the lazily initialized singleton after the init attempt
(`none` models `initStatsStore` failing / returning null, which yields the
empty-stats success envelope); each aggregate read that faults is caught
by its own `try`/`catch` and its field keeps the zero default.  The second
component lists the stats-store operations performed. -/
def handleStatsBody (store? : Option StatsState) (gf : GetFaults) (now : Int)
    (today : String) : ApiResponse × List String :=
  match store? with
  | none => (.successResp 0 0 0 0 [], ["initStatsStore"])
  | some bs =>
      let totalDownloads := if gf.total then 0 else getTotalDownloads bs
      let downloadsToday := if gf.today then 0 else getDownloadsToday today bs
      let downloadsThisWeek := if gf.week then 0 else getDownloadsThisWeek now bs
      let downloadsThisMonth := if gf.month then 0 else getDownloadsThisMonth now bs
      let socialMediaStats := if gf.social then [] else getSocialMediaStats bs
      (.successResp totalDownloads downloadsToday downloadsThisWeek downloadsThisMonth
        (reduceEntries socialMediaStats),
       ["initStatsStoreIfAbsent", "getTotalDownloads", "getDownloadsToday",
        "getDownloadsThisWeek", "getDownloadsThisMonth", "getSocialMediaStats"])

/-- Hardened `handleStatsRequest` (core/stats.js, third variant): when both
the API-key mechanism and the auth-required flag are truthy and the
`Authorization` header is absent or does not start with `API-Key `, answer
the `error.api.auth.key.missing` envelope before any stats work; otherwise
run the stats body. -/
def handleStatsRequest (env : HandlerEnv) (req : StatsRequest)
    (store? : Option StatsState) (gf : GetFaults) (now : Int) (today : String) :
    ApiResponse × List String :=
  if truthyStr env.apiKeyURL && env.authRequired then
    if authHeaderMissing req then
      (.errorResp "error.api.auth.key.missing", [])
    else handleStatsBody store? gf now today
  else handleStatsBody store? gf now today

/-- C8: when the API-key mechanism and the auth-required flag are both
configured and the `Authorization` header is absent or malformed, the
handler returns the `error.api.auth.key.missing` error envelope and
performs no store operation at all (empty operation trace — no read,
write, or initialization). -/
theorem stats_auth_missing_no_store_ops (env : HandlerEnv) (req : StatsRequest)
    (store? : Option StatsState) (gf : GetFaults) (now : Int) (today : String)
    (hkey : truthyStr env.apiKeyURL = true) (hreq : env.authRequired = true)
    (hauth : authHeaderMissing req = true) :
    handleStatsRequest env req store? gf now today
      = (.errorResp "error.api.auth.key.missing", []) := by
  simp [handleStatsRequest, hkey, hreq, hauth]

/-- C8 witness: configured API key URL, auth required, no header. -/
theorem stats_auth_missing_no_store_ops_witness :
    handleStatsRequest ⟨some "https://keys.example", true⟩ ⟨none⟩ (some initState)
        ⟨false, false, false, false, false⟩ 0 "2024-01-01"
      = (.errorResp "error.api.auth.key.missing", []) :=
  stats_auth_missing_no_store_ops ⟨some "https://keys.example", true⟩ ⟨none⟩
    (some initState) ⟨false, false, false, false, false⟩ 0 "2024-01-01"
    (by decide) rfl rfl

/-- C9: in the hardened handler, whenever authentication passes or is not
required, the response is always a success envelope whose fields are
per-field isolated — each aggregate equals its stored value unless that
particular read faults, in which case that field alone falls back to its
zero value; with every read failing all aggregates are zero/empty, and
when the store cannot even be initialized the handler still answers the
all-zero success envelope.  No error envelope is produced. -/
theorem stats_failing_backend_success (env : HandlerEnv) (req : StatsRequest)
    (bs : StatsState) (gf : GetFaults) (now : Int) (today : String)
    (hauth : truthyStr env.apiKeyURL = false ∨ env.authRequired = false ∨
      authHeaderMissing req = false) :
    (handleStatsRequest env req (some bs) gf now today).1
      = .successResp (if gf.total then 0 else getTotalDownloads bs)
          (if gf.today then 0 else getDownloadsToday today bs)
          (if gf.week then 0 else getDownloadsThisWeek now bs)
          (if gf.month then 0 else getDownloadsThisMonth now bs)
          (reduceEntries (if gf.social then [] else getSocialMediaStats bs)) ∧
    (gf = ⟨true, true, true, true, true⟩ →
      (handleStatsRequest env req (some bs) gf now today).1 = .successResp 0 0 0 0 []) ∧
    handleStatsRequest env req none gf now today
      = (.successResp 0 0 0 0 [], ["initStatsStore"]) := by
  have hgate : ∀ st : Option StatsState,
      handleStatsRequest env req st gf now today = handleStatsBody st gf now today := by
    intro st
    rcases hauth with h | h | h <;> simp [handleStatsRequest, h]
  refine ⟨?_, ?_, ?_⟩
  · rw [hgate]
    simp [handleStatsBody]
  · intro hgf
    subst hgf
    rw [hgate]
    simp [handleStatsBody, reduceEntries]
  · rw [hgate]
    simp [handleStatsBody]

/-- C9 witness: no auth configured, store present but every read failing,
and also a store that failed to initialize; both answer the all-zero
success envelope. -/
theorem stats_failing_backend_success_witness :
    (handleStatsRequest ⟨none, false⟩ ⟨none⟩ (some initState)
        ⟨true, true, true, true, true⟩ 0 "2024-01-01").1 = .successResp 0 0 0 0 [] ∧
    handleStatsRequest ⟨none, false⟩ ⟨none⟩ none
        ⟨true, true, true, true, true⟩ 0 "2024-01-01"
      = (.successResp 0 0 0 0 [], ["initStatsStore"]) := by
  have h := stats_failing_backend_success ⟨none, false⟩ ⟨none⟩ initState
    ⟨true, true, true, true, true⟩ 0 "2024-01-01" (Or.inl rfl)
  exact ⟨h.2.1 rfl, h.2.2⟩

/-- A primitive operation issued against the backing key-value store. -/
inductive StoreOp where
  | readOp (key : String)
  | writeOp (key : String)
  | hasOp (key : String)
  deriving DecidableEq, Repr

/-- An operation that does not modify the backing store. -/
def isRead : StoreOp → Bool
  | .readOp _ => true
  | .hasOp _ => true
  | .writeOp _ => false

/-- A value held by the backing store (number or counter object). -/
inductive StoreValue where
  | num (n : Nat)
  | obj (m : ObjNat)
  deriving DecidableEq, Repr

/-- `this.#store.get(key)` with an operation trace: returns the stored
value (or absent), the store state after the call, and the issued
operation. -/
def storeFetch (k : String) (s : StatsState) :
    Option StoreValue × StatsState × List StoreOp :=
  (if k = "totalDownloads" then s.totalDownloads.map .num
   else if k = "dailyStats" then s.dailyStats.map .obj
   else if k = "socialMediaStats" then s.socialMediaStats.map .obj
   else none, s, [.readOp k])

/-- Traced `getTotalDownloads`: one `get('totalDownloads')`, `|| 0`. -/
def getTotalDownloadsT (s : StatsState) : Nat × StatsState × List StoreOp :=
  let (v, s1, t) := storeFetch "totalDownloads" s
  ((match v with | some (.num n) => n | _ => 0), s1, t)

/-- Traced `getDailyStats`: one `get('dailyStats')`, `|| {}`. -/
def getDailyStatsT (s : StatsState) : ObjNat × StatsState × List StoreOp :=
  let (v, s1, t) := storeFetch "dailyStats" s
  ((match v with | some (.obj m) => m | _ => []), s1, t)

/-- Traced `getSocialMediaStats`: one `get('socialMediaStats')`, `|| {}`. -/
def getSocialMediaStatsT (s : StatsState) : ObjNat × StatsState × List StoreOp :=
  let (v, s1, t) := storeFetch "socialMediaStats" s
  ((match v with | some (.obj m) => m | _ => []), s1, t)

/-- Traced `getDownloadsToday`: reads the daily histogram, then a pure
lookup of today's key. -/
def getDownloadsTodayT (today : String) (s : StatsState) :
    Nat × StatsState × List StoreOp :=
  let (dailyStats, s1, t) := getDailyStatsT s
  (lookupD dailyStats today, s1, t)

/-- Traced `getDownloadsThisWeek`: reads the daily histogram, then a pure
loop over its entries. -/
def getDownloadsThisWeekT (now : Int) (s : StatsState) :
    Nat × StatsState × List StoreOp :=
  let (dailyStats, s1, t) := getDailyStatsT s
  (dailyStats.foldl (fun weeklyTotal e =>
    match parseDateMs e.1 with
    | none => weeklyTotal
    | some date =>
        if now - 7 * msPerDay ≤ date ∧ date ≤ now then weeklyTotal + e.2
        else weeklyTotal) 0, s1, t)

/-- Traced `getDownloadsThisMonth`: reads the daily histogram, then a pure
loop over its entries. -/
def getDownloadsThisMonthT (now : Int) (s : StatsState) :
    Nat × StatsState × List StoreOp :=
  let (dailyStats, s1, t) := getDailyStatsT s
  (dailyStats.foldl (fun monthlyTotal e =>
    match parseDate e.1 with
    | none => monthlyTotal
    | some ymd =>
        if (ymd.2.1 : Int) - 1 = (monthOf now : Int) - 1 ∧ ymd.1 = yearOf now
        then monthlyTotal + e.2 else monthlyTotal) 0, s1, t)

lemma getTotalDownloadsT_val (s : StatsState) :
    (getTotalDownloadsT s).1 = getTotalDownloads s := by
  cases h : s.totalDownloads <;>
    simp [getTotalDownloadsT, storeFetch, getTotalDownloads, h]

lemma getDailyStatsT_val (s : StatsState) :
    (getDailyStatsT s).1 = getDailyStats s := by
  cases h : s.dailyStats <;>
    simp [getDailyStatsT, storeFetch, getDailyStats, h]

lemma getSocialMediaStatsT_val (s : StatsState) :
    (getSocialMediaStatsT s).1 = getSocialMediaStats s := by
  cases h : s.socialMediaStats <;>
    simp [getSocialMediaStatsT, storeFetch, getSocialMediaStats, h]

lemma getDownloadsTodayT_val (today : String) (s : StatsState) :
    (getDownloadsTodayT today s).1 = getDownloadsToday today s := by
  simp [getDownloadsTodayT, getDownloadsToday, getDailyStatsT_val]

lemma getDownloadsThisWeekT_val (now : Int) (s : StatsState) :
    (getDownloadsThisWeekT now s).1 = getDownloadsThisWeek now s := by
  cases h : s.dailyStats <;>
    simp [getDownloadsThisWeekT, getDailyStatsT, storeFetch,
      getDownloadsThisWeek, getDailyStats, h]

lemma getDownloadsThisMonthT_val (now : Int) (s : StatsState) :
    (getDownloadsThisMonthT now s).1 = getDownloadsThisMonth now s := by
  cases h : s.dailyStats <;>
    simp [getDownloadsThisMonthT, getDailyStatsT, storeFetch,
      getDownloadsThisMonth, getDailyStats, h]

/-- C10: every read operation of the stats store — `getTotalDownloads`,
`getDailyStats`, `getSocialMediaStats`, `getDownloadsToday`,
`getDownloadsThisWeek`, `getDownloadsThisMonth` — leaves the backing store
exactly as it was (all three persisted fields unchanged) and its operation
trace consists of reads only, issuing no write. -/
theorem getters_read_only (s : StatsState) (now : Int) (today : String) :
    ((getTotalDownloadsT s).2.1 = s ∧ (getTotalDownloadsT s).2.2.all isRead = true) ∧
    ((getDailyStatsT s).2.1 = s ∧ (getDailyStatsT s).2.2.all isRead = true) ∧
    ((getSocialMediaStatsT s).2.1 = s ∧ (getSocialMediaStatsT s).2.2.all isRead = true) ∧
    ((getDownloadsTodayT today s).2.1 = s ∧
      (getDownloadsTodayT today s).2.2.all isRead = true) ∧
    ((getDownloadsThisWeekT now s).2.1 = s ∧
      (getDownloadsThisWeekT now s).2.2.all isRead = true) ∧
    ((getDownloadsThisMonthT now s).2.1 = s ∧
      (getDownloadsThisMonthT now s).2.2.all isRead = true) :=
  ⟨⟨rfl, rfl⟩, ⟨rfl, rfl⟩, ⟨rfl, rfl⟩, ⟨rfl, rfl⟩, ⟨rfl, rfl⟩, ⟨rfl, rfl⟩⟩
